import Mathlib

/-!
Verification of the ai-adblocker backend (`ai-backend/api_server.py`,
`ai-backend/train_model.py`) against its specification.

The Python code is shallowly embedded: JSON-ish scalar values become the
inductive type `Val`, a candidate record (a Python dict) becomes an
association list `Record`, and operations that can raise a Python
exception (`TypeError`, `AttributeError`) return `Except String _`.
Python numbers (ints and floats) are modelled as rationals; Python's
`bool` is a subtype of `int`, so `isinstance(x, (int, float))` accepts
booleans and arithmetic coerces `True`/`False` to `1`/`0`, which the
embedding mirrors.  The trained scikit-learn model is opaque (a pickle,
not source); following the spec it is treated as an oracle parameter
`List ℚ → ℚ` giving `predict_proba(...)[_, 1]`, the class-1 probability
of each row.
-/

set_option maxRecDepth 100000

namespace AdBlocker

instance {ε α : Type _} [DecidableEq ε] [DecidableEq α] : DecidableEq (Except ε α) := fun x y =>
  match x, y with
  | .ok a, .ok b =>
      if h : a = b then isTrue (by rw [h]) else isFalse (by simp [h])
  | .ok _, .error _ => isFalse (by simp)
  | .error _, .ok _ => isFalse (by simp)
  | .error e, .error e' =>
      if h : e = e' then isTrue (by rw [h]) else isFalse (by simp [h])

/-- A Python scalar value as it appears in a parsed JSON candidate record. -/
inductive Val where
  | num (q : ℚ)
  | bool (b : Bool)
  | str (s : String)
  | null
deriving DecidableEq

/-- A candidate record: a Python dict with string keys (association list,
first binding wins, as dict keys are unique). -/
def Record := List (String × Val)

instance : DecidableEq Record := inferInstanceAs (DecidableEq (List (String × Val)))

/-- `d.get(k)` returning `None` when absent: `lookup`. -/
def lookup (r : Record) (k : String) : Option Val :=
  match r with
  | [] => none
  | (k', v) :: rest => if k' = k then some v else lookup rest k

/-- `d.get(k, default)`. -/
def getD (r : Record) (k : String) (d : Val) : Val :=
  (lookup r k).getD d

/-- `d.get(k)` with Python's implicit `None` default. -/
def getF (r : Record) (k : String) : Val :=
  getD r k Val.null

/-- Python truthiness of a scalar value. -/
def truthy : Val → Bool
  | Val.num q => q ≠ 0
  | Val.bool b => b
  | Val.str s => s ≠ ""
  | Val.null => false

/-- Numeric coercion used by Python arithmetic and comparisons:
ints/floats pass through, `True`/`False` coerce to 1/0, strings and
`None` have no numeric value (a comparison or division raises
`TypeError`). -/
def toNum : Val → Option ℚ
  | Val.num q => some q
  | Val.bool b => some (if b then 1 else 0)
  | _ => none

/-- `isinstance(v, (int, float))`; in Python `bool` is a subclass of
`int`, so booleans pass this check. -/
def isNumericV : Val → Bool
  | Val.num _ => true
  | Val.bool _ => true
  | _ => false

/-- The numeric value of a `Val` that passed `isNumericV` (0 otherwise). -/
def numVal : Val → ℚ
  | Val.num q => q
  | Val.bool b => if b then 1 else 0
  | _ => 0

/-- Numeric coercion raising a `TypeError` for non-numeric values, as a
Python comparison or division on such a value would. -/
def toNumE (v : Val) (field : String) : Except String ℚ :=
  match toNum v with
  | some q => Except.ok q
  | none => Except.error ("TypeError: " ++ field)

/-- String coercion: a string-method call (`.strip()`, `.upper()`, ...)
on a non-string raises `AttributeError`. -/
def toStrE (v : Val) (field : String) : Except String String :=
  match v with
  | Val.str s => Except.ok s
  | _ => Except.error ("AttributeError: " ++ field)

/-- Python `str.upper()`, character by character (all tags of interest are
ASCII, where Python and Lean upper-casing agree). -/
def pyUpper (s : String) : String := String.mk (s.data.map Char.toUpper)

/-- Python `str.lower()`, character by character. -/
def pyLower (s : String) : String := String.mk (s.data.map Char.toLower)

/-- Python `str.strip()` on a character list: drop leading and trailing
whitespace. -/
def stripChars (l : List Char) : List Char :=
  ((l.dropWhile Char.isWhitespace).reverse.dropWhile Char.isWhitespace).reverse

/-- Python `str.strip()`. -/
def pyStrip (s : String) : String := String.mk (stripChars s.data)

/-- The first whitespace-separated token of an already-stripped string:
`s.split()[0]` when `s` is the result of `.strip()`. -/
def firstToken (s : String) : String :=
  String.mk (s.data.takeWhile (fun c => ¬ c.isWhitespace))

/-- `source_map = {'none': 0, 'text': 1, 'class': 2, 'id': 3}` looked up
with `.get(source, 0)`; a dict lookup never raises, unknown or absent or
non-string sources rank 0. -/
def sourceRank : Val → ℚ
  | Val.str "none" => 0
  | Val.str "text" => 1
  | Val.str "class" => 2
  | Val.str "id" => 3
  | _ => 0

/-- `tag_scores = {'IFRAME': 3, 'DIV': 2, 'IMG': 1, 'SECTION': 1, 'ASIDE': 1}`
looked up with `.get(tag, 0)` on the upper-cased tag. -/
def tagScore : String → ℚ
  | "IFRAME" => 3
  | "DIV" => 2
  | "IMG" => 1
  | "SECTION" => 1
  | "ASIDE" => 1
  | _ => 0

/-- The banner-size disjunction from `extract_features`:
leaderboard, medium rectangle, wide skyscraper, mobile banner. -/
def isBanner (width height : ℚ) : Bool :=
  (width ≥ 728 ∧ height ≥ 90) ∨
  (width ≥ 300 ∧ height ≥ 250) ∨
  (width ≥ 160 ∧ height ≥ 600) ∨
  (width ≥ 320 ∧ height ≥ 50)

/-- `extract_features(candidate)` from `api_server.py`.  Returns the
10-element feature vector, or the first Python exception the function
would raise.  Evaluation order follows the source: the aspect-ratio block
compares `height > 0` first (and divides by `height` only when positive),
the banner check then compares `width`, the large-area check compares
`area`, and finally `candidate.get('tag', '').upper()` requires `tag` to
be a string when present. -/
def extract_features (candidate : Record) : Except String (List ℚ) := do
  let f1 : ℚ := if truthy (getF candidate "keyWordHit") then 1 else 0
  let f2 : ℚ := if truthy (getF candidate "isIframe") then 1 else 0
  let wv := getD candidate "width" (Val.num 0)
  let hv := getD candidate "height" (Val.num 0)
  let av := getD candidate "area" (Val.num 0)
  let f6 : ℚ := sourceRank (getF candidate "keyWordSource")
  let h ← toNumE hv "height"
  let aspect : ℚ ←
    if h > 0 then do
      let w ← toNumE wv "width"
      pure (w / h)
    else
      pure 0
  let f7 : ℚ := min aspect 10
  let w ← toNumE wv "width"
  let f8 : ℚ := if isBanner w h then 1 else 0
  let a ← toNumE av "area"
  let f9 : ℚ := if a > 100000 then 1 else 0
  let tagS ← toStrE (getD candidate "tag" (Val.str "")) "tag"
  let f10 : ℚ := tagScore (pyUpper tagS)
  pure [f1, f2, w, h, a, f6, f7, f8, f9, f10]

/-- `create_selector(candidate)` from `api_server.py`: `#<id>` for a
non-empty stripped `id`, else `.<first class>` for a non-empty stripped
`classList`, else the lower-cased tag — with `'div'` substituted only when
the `tag` key is absent (`candidate.get('tag', 'div')`).  A string method
on a non-string field value raises, hence `Except`. -/
def create_selector (candidate : Record) : Except String String := do
  let elemId0 ← toStrE (getD candidate "id" (Val.str "")) "id"
  let elemId := pyStrip elemId0
  let classList0 ← toStrE (getD candidate "classList" (Val.str "")) "classList"
  let classList := pyStrip classList0
  if elemId ≠ "" then
    pure ("#" ++ elemId)
  else if classList ≠ "" then
    let firstClass := firstToken classList
    if firstClass ≠ "" then
      pure ("." ++ firstClass)
    else do
      let tagS ← toStrE (getD candidate "tag" (Val.str "div")) "tag"
      pure (pyLower tagS)
  else do
    let tagS ← toStrE (getD candidate "tag" (Val.str "div")) "tag"
    pure (pyLower tagS)

/-- `validate_candidate(candidate, index)` from `api_server.py`: the four
required fields in order, then the numeric type/sign checks on `width`,
`height`, `area`.  `isinstance(x, (int, float))` accepts booleans. -/
def validate_candidate (candidate : Record) (index : Nat) : Bool × String :=
  if lookup candidate "tag" = none then
    (false, s!"Candidate {index} missing required field: tag")
  else if lookup candidate "width" = none then
    (false, s!"Candidate {index} missing required field: width")
  else if lookup candidate "height" = none then
    (false, s!"Candidate {index} missing required field: height")
  else if lookup candidate "area" = none then
    (false, s!"Candidate {index} missing required field: area")
  else if ¬ isNumericV (getF candidate "width") ∨ numVal (getD candidate "width" (Val.num 0)) < 0 then
    (false, s!"Candidate {index} has invalid width")
  else if ¬ isNumericV (getF candidate "height") ∨ numVal (getD candidate "height" (Val.num 0)) < 0 then
    (false, s!"Candidate {index} has invalid height")
  else if ¬ isNumericV (getF candidate "area") ∨ numVal (getD candidate "area" (Val.num 0)) < 0 then
    (false, s!"Candidate {index} has invalid area")
  else
    (true, "")

/-- Configuration constant `MAX_CANDIDATES` from `api_server.py`. -/
def MAX_CANDIDATES : Nat := 500

/-- Configuration constant `CONFIDENCE_THRESHOLD` from `api_server.py`. -/
def CONFIDENCE_THRESHOLD : ℤ := 80

/-- Python `int(q)` on a float/rational: truncation toward zero. -/
def pyInt (q : ℚ) : ℤ := if 0 ≤ q then ⌊q⌋ else -⌊-q⌋

/-- An element of the `adCandidates` array: either a JSON object (dict)
or some other JSON value, which `predict` rejects with
"Candidate i must be an object". -/
inductive Candidate where
  | obj (r : Record)
  | nonObj
deriving DecidableEq

/-- Whether a candidate passes `predict`'s per-item checks
(`isinstance(candidate, dict)` plus `validate_candidate`); the boolean
outcome of `validate_candidate` does not depend on the index argument,
which only enters the message. -/
def candValid : Candidate → Bool
  | Candidate.obj r => (validate_candidate r 0).1
  | Candidate.nonObj => false

/-- The error message `predict` produces for an invalid candidate at a
given index. -/
def invalidMsg : Candidate → Nat → String
  | Candidate.obj r, i => (validate_candidate r i).2
  | Candidate.nonObj, i => s!"Candidate {i} must be an object"

/-- The validation loop of `predict` (lines 249–258): the first failing
candidate's error message, `none` if all pass. -/
def firstInvalid (idx : Nat) : List Candidate → Option String
  | [] => none
  | c :: rest =>
      if candValid c then firstInvalid (idx + 1) rest else some (invalidMsg c idx)

/-- The feature vector `predict` uses for a candidate: the extraction
result, and `np.zeros(10)` when `extract_features` raises (the per-item
`try/except` fallback at lines 264–271).  A non-object never reaches this
point, as validation rejects it first. -/
def featuresOf : Candidate → List ℚ
  | Candidate.obj r =>
      match extract_features r with
      | Except.ok f => f
      | Except.error _ => List.replicate 10 0
  | Candidate.nonObj => List.replicate 10 0

/-- The selector `predict` attaches to a result; `create_selector` can
raise on non-string `id`/`classList`/`tag` values, which the outer
`except Exception` turns into a 500 response. -/
def selectorOf : Candidate → Except String String
  | Candidate.obj r => create_selector r
  | Candidate.nonObj => Except.error "TypeError: candidate"

/-- One entry of the `predictions` array. -/
structure PredictionResult where
  index : Nat
  isAd : Bool
  confidence : ℤ
  selector : String
deriving DecidableEq

/-- The observable JSON body of a `/predict` response together with its
HTTP status: only the keys the corresponding `jsonify` call passes are
`some`. -/
structure Response where
  status : Nat
  error : Option String
  predictions : Option (List PredictionResult)
  total_scanned : Option Nat
  ads_detected : Option Nat
  request_id : Option String
deriving DecidableEq

/-- The result-building loop of `predict` (lines 291–302), fused with the
per-row oracle scores: `confidence = int(proba[1] * 100)`,
`is_ad = confidence >= CONFIDENCE_THRESHOLD`, selector from
`create_selector`.  The oracle is pure, so scoring rows one at a time
coincides with the batched `predict_proba` call of the source. -/
def buildResults (oracle : List ℚ → ℚ) : Nat → List Candidate → Except String (List PredictionResult)
  | _, [] => Except.ok []
  | idx, c :: rest => do
      let confidence : ℤ := pyInt (oracle (featuresOf c) * 100)
      let sel ← selectorOf c
      let tail ← buildResults oracle (idx + 1) rest
      Except.ok ({ index := idx, isAd := decide (confidence ≥ CONFIDENCE_THRESHOLD),
                   confidence := confidence, selector := sel } :: tail)

/-- The candidate-list truncation of `predict` (lines 234–237). -/
def truncated (cands : List Candidate) : List Candidate :=
  if cands.length > MAX_CANDIDATES then cands.take MAX_CANDIDATES else cands

/-- The body of `predict` from the `adCandidates` list on (truncation,
empty-batch short-circuit, validation, extraction with zero-vector
fallback, scoring, thresholding, selector attachment, aggregation).
Response fields mirror exactly the keys of each `jsonify` call in the
source; in particular the empty-batch and validation-error responses
carry no `request_id`. -/
def predictOnCandidates (oracle : List ℚ → ℚ) (requestId : String)
    (cands : List Candidate) : Response :=
  if (truncated cands).isEmpty then
    { status := 200, error := none, predictions := some [],
      total_scanned := some 0, ads_detected := some 0, request_id := none }
  else
    match firstInvalid 0 (truncated cands) with
    | some msg =>
        { status := 400, error := some msg, predictions := none,
          total_scanned := none, ads_detected := none, request_id := none }
    | none =>
        match buildResults oracle 0 (truncated cands) with
        | Except.error e =>
            { status := 500, error := some ("Prediction failed: " ++ e),
              predictions := none, total_scanned := none, ads_detected := none,
              request_id := some requestId }
        | Except.ok results =>
            { status := 200, error := none, predictions := some results,
              total_scanned := some (truncated cands).length,
              ads_detected := some (results.countP (fun r => r.isAd)),
              request_id := some requestId }

/-- The shape of a parsed request body as `predict` distinguishes it
(lines 215–232): unparsable JSON / falsy body, object without
`adCandidates`, `adCandidates` not an array, or the candidate array. -/
inductive ReqBody where
  | noJson
  | missingAdCandidates
  | notArray
  | candidates (l : List Candidate)
deriving DecidableEq

/-- The `/predict` handler from the model-loaded check on: all early
error responses (model not loaded, bad body) carry no `request_id`. -/
def predict (modelLoaded : Bool) (oracle : List ℚ → ℚ) (requestId : String)
    (body : ReqBody) : Response :=
  if ¬ modelLoaded then
    { status := 500,
      error := some "Model not loaded. Please train the model first using: python train_model.py",
      predictions := none, total_scanned := none, ads_detected := none, request_id := none }
  else
    match body with
    | ReqBody.noJson =>
        { status := 400, error := some "Invalid JSON in request body",
          predictions := none, total_scanned := none, ads_detected := none, request_id := none }
    | ReqBody.missingAdCandidates =>
        { status := 400, error := some "Missing adCandidates in request body",
          predictions := none, total_scanned := none, ads_detected := none, request_id := none }
    | ReqBody.notArray =>
        { status := 400, error := some "adCandidates must be an array",
          predictions := none, total_scanned := none, ads_detected := none, request_id := none }
    | ReqBody.candidates l => predictOnCandidates oracle requestId l

/-- `int(n_samples * 0.4)` from `train_model.py` line 26.  For every
sample count arising in training (anything below `2^53`, where IEEE
doubles are exact on these products) `int(n * 0.4)` equals `⌊2n/5⌋`,
which is how the embedding states it. -/
def n_ads (n_samples : Nat) : Nat := 2 * n_samples / 5

/-- The label sequence produced by `generate_training_data` before the
final shuffle: `int(n*0.4)` ones then `n - int(n*0.4)` zeros
(lines 26, 106, 109, 188).  `random.shuffle` permutes the pairs in place,
so lengths and label counts are unaffected by it. -/
def trainingLabels (n_samples : Nat) : List Nat :=
  List.replicate (n_ads n_samples) 1 ++ List.replicate (n_samples - n_ads n_samples) 0

/-! ### Helper lemmas -/

/-- Unfolding of `extract_features` when the three dimension fields
coerce to numbers and the tag is a string: the exact 10-vector. -/
theorem extract_features_ok_of (r : Record) (w h a : ℚ) (t : String)
    (hw : toNum (getD r "width" (Val.num 0)) = some w)
    (hh : toNum (getD r "height" (Val.num 0)) = some h)
    (ha : toNum (getD r "area" (Val.num 0)) = some a)
    (ht : getD r "tag" (Val.str "") = Val.str t) :
    extract_features r = Except.ok
      [if truthy (getF r "keyWordHit") then 1 else 0,
       if truthy (getF r "isIframe") then 1 else 0,
       w, h, a,
       sourceRank (getF r "keyWordSource"),
       min (if h > 0 then w / h else 0) 10,
       if isBanner w h then 1 else 0,
       if a > 100000 then 1 else 0,
       tagScore (pyUpper t)] := by
  by_cases hpos : h > 0 <;>
    simp [extract_features, toNumE, toStrE, hw, hh, ha, ht, hpos,
      Except.instMonad, Except.bind, Except.pure]

/-- The pass/fail verdict of `validate_candidate` does not depend on the
index (the index only enters the message strings). -/
theorem validate_candidate_fst_index (r : Record) (i : Nat) :
    (validate_candidate r i).1 = (validate_candidate r 0).1 := by
  unfold validate_candidate
  split_ifs <;> rfl

/-- `d.get(k, default)` returns the stored value when the key is present. -/
theorem getD_of_lookup (r : Record) (k : String) (v d : Val)
    (h : lookup r k = some v) : getD r k d = v := by
  simp [getD, h]

/-- A value passing the `isinstance(x, (int, float))` check coerces to its
`numVal`. -/
theorem toNum_of_isNumericV (v : Val) (h : isNumericV v = true) :
    toNum v = some (numVal v) := by
  cases v <;> simp [isNumericV] at h <;> simp [toNum, numVal]

/-- What a passing validation guarantees: the three dimension fields are
present, numeric (booleans included) and non-negative. -/
theorem validate_candidate_pass (r : Record) (i : Nat)
    (hpass : (validate_candidate r i).1 = true) :
    lookup r "tag" ≠ none ∧
    (∃ w, toNum (getD r "width" (Val.num 0)) = some w ∧ 0 ≤ w) ∧
    (∃ h, toNum (getD r "height" (Val.num 0)) = some h ∧ 0 ≤ h) ∧
    (∃ a, toNum (getD r "area" (Val.num 0)) = some a ∧ 0 ≤ a) := by
  unfold validate_candidate at hpass
  split_ifs at hpass with h1 h2 h3 h4 h5 h6 h7
  push_neg at h5 h6 h7
  refine ⟨h1, ?_, ?_, ?_⟩
  · obtain ⟨v, hv⟩ := Option.ne_none_iff_exists'.mp h2
    have hF : getF r "width" = v := getD_of_lookup r "width" v Val.null hv
    have hD : getD r "width" (Val.num 0) = v := getD_of_lookup r "width" v (Val.num 0) hv
    rw [hF] at h5
    rw [hD] at h5 ⊢
    exact ⟨numVal v, toNum_of_isNumericV v h5.1, h5.2⟩
  · obtain ⟨v, hv⟩ := Option.ne_none_iff_exists'.mp h3
    have hF : getF r "height" = v := getD_of_lookup r "height" v Val.null hv
    have hD : getD r "height" (Val.num 0) = v := getD_of_lookup r "height" v (Val.num 0) hv
    rw [hF] at h6
    rw [hD] at h6 ⊢
    exact ⟨numVal v, toNum_of_isNumericV v h6.1, h6.2⟩
  · obtain ⟨v, hv⟩ := Option.ne_none_iff_exists'.mp h4
    have hF : getF r "area" = v := getD_of_lookup r "area" v Val.null hv
    have hD : getD r "area" (Val.num 0) = v := getD_of_lookup r "area" v (Val.num 0) hv
    rw [hF] at h7
    rw [hD] at h7 ⊢
    exact ⟨numVal v, toNum_of_isNumericV v h7.1, h7.2⟩

/-- When the dimension fields coerce but `tag` holds a non-string,
`candidate.get('tag', '').upper()` raises `AttributeError`. -/
theorem extract_features_error_tag (r : Record) (w h a : ℚ)
    (hw : toNum (getD r "width" (Val.num 0)) = some w)
    (hh : toNum (getD r "height" (Val.num 0)) = some h)
    (ha : toNum (getD r "area" (Val.num 0)) = some a)
    (ht : ∀ t, getD r "tag" (Val.str "") ≠ Val.str t) :
    extract_features r = Except.error "AttributeError: tag" := by
  have htag : toStrE (getD r "tag" (Val.str "")) "tag" = Except.error "AttributeError: tag" := by
    cases hv : getD r "tag" (Val.str "") with
    | str s => exact absurd hv (ht s)
    | num q => rfl
    | bool b => rfl
    | null => rfl
  by_cases hpos : h > 0 <;>
    simp [extract_features, toNumE, hw, hh, ha, htag, hpos,
      Except.instMonad, Except.bind, Except.pure]

/-- `firstInvalid` returns `none` exactly when every candidate passes. -/
theorem firstInvalid_eq_none (k : Nat) (cs : List Candidate) :
    firstInvalid k cs = none ↔ ∀ c ∈ cs, candValid c = true := by
  induction cs generalizing k with
  | nil => simp [firstInvalid]
  | cons c rest ih =>
      by_cases hc : candValid c <;> simp [firstInvalid, hc, ih]

/-- `firstInvalid` reports the first failing candidate's message. -/
theorem firstInvalid_eq_some (k : Nat) (cs : List Candidate) (i : Nat) (c : Candidate)
    (hget : cs[i]? = some c)
    (hfirst : ∀ j cj, j < i → cs[j]? = some cj → candValid cj = true)
    (hbad : candValid c = false) :
    firstInvalid k cs = some (invalidMsg c (k + i)) := by
  induction cs generalizing k i with
  | nil => simp at hget
  | cons d rest ih =>
      cases i with
      | zero =>
          simp at hget
          subst hget
          simp [firstInvalid, hbad]
      | succ n =>
          have hd : candValid d = true := hfirst 0 d (Nat.succ_pos n) (by simp)
          have hrec := ih (k + 1) n (by simpa using hget)
            (fun j cj hj hcj => hfirst (j + 1) cj (by omega) (by simpa using hcj))
          have harith : k + 1 + n = k + (n + 1) := by omega
          rw [firstInvalid, if_pos hd, hrec, harith]

/-- When every selector succeeds, the result-building loop succeeds and
produces one result per candidate. -/
theorem buildResults_ok_exists (oracle : List ℚ → ℚ) (k : Nat) (cs : List Candidate)
    (hsel : ∀ c ∈ cs, (selectorOf c).isOk = true) :
    ∃ rs, buildResults oracle k cs = Except.ok rs ∧ rs.length = cs.length := by
  induction cs generalizing k with
  | nil => exact ⟨[], rfl, rfl⟩
  | cons c rest ih =>
      have hc := hsel c (List.mem_cons_self c rest)
      obtain ⟨s, hs⟩ : ∃ s, selectorOf c = Except.ok s := by
        cases hv : selectorOf c with
        | ok s => exact ⟨s, rfl⟩
        | error e => rw [hv] at hc; simp [Except.isOk, Except.toBool] at hc
      obtain ⟨rs, hrs, hlen⟩ := ih (k + 1) (fun c hm => hsel c (List.mem_cons_of_mem _ hm))
      refine ⟨{ index := k,
                isAd := decide (pyInt (oracle (featuresOf c) * 100) ≥ CONFIDENCE_THRESHOLD),
                confidence := pyInt (oracle (featuresOf c) * 100),
                selector := s } :: rs, ?_, ?_⟩
      · simp [buildResults, hs, hrs, Except.instMonad, Except.bind, Except.pure]
      · simp [hlen]

/-- What each entry of a successfully built result list is: its index,
its confidence as the truncated scaled probability of its candidate, and
the thresholded decision. -/
theorem buildResults_ok_get? (oracle : List ℚ → ℚ) (k : Nat) (cs : List Candidate)
    (rs : List PredictionResult) (h : buildResults oracle k cs = Except.ok rs) :
    rs.length = cs.length ∧
    ∀ i pr, rs[i]? = some pr → ∃ c, cs[i]? = some c ∧
      pr.index = k + i ∧
      pr.confidence = pyInt (oracle (featuresOf c) * 100) ∧
      pr.isAd = decide (pr.confidence ≥ CONFIDENCE_THRESHOLD) ∧
      selectorOf c = Except.ok pr.selector := by
  induction cs generalizing k rs with
  | nil =>
      simp [buildResults] at h
      subst h
      exact ⟨rfl, by simp⟩
  | cons c rest ih =>
      rw [buildResults] at h
      cases hs : selectorOf c with
      | error e =>
          simp [hs, Except.instMonad, Except.bind, Except.pure] at h
      | ok s =>
          cases ht : buildResults oracle (k + 1) rest with
          | error e =>
              simp [hs, ht, Except.instMonad, Except.bind, Except.pure] at h
          | ok tail =>
              simp [hs, ht, Except.instMonad, Except.bind, Except.pure] at h
              obtain ⟨hlen, htail⟩ := ih (k + 1) tail ht
              subst h
              constructor
              · simp [hlen]
              · intro i pr hpr
                cases i with
                | zero =>
                    simp at hpr
                    subst hpr
                    exact ⟨c, by simp, by simp, rfl, by simp, hs⟩
                | succ n =>
                    simp at hpr
                    obtain ⟨c', hc', hidx, hconf, had, hsel'⟩ := htail n pr hpr
                    exact ⟨c', by simpa using hc', by omega, hconf, had, hsel'⟩

/-- Bounds for `int(p * 100)` when `p` is a probability. -/
theorem pyInt_scaled_bounds (p : ℚ) (h0 : 0 ≤ p) (h1 : p ≤ 1) :
    0 ≤ pyInt (p * 100) ∧ pyInt (p * 100) ≤ 100 := by
  have hnn : (0:ℚ) ≤ p * 100 := by positivity
  unfold pyInt
  rw [if_pos hnn]
  constructor
  · exact Int.floor_nonneg.mpr hnn
  · have hle : p * 100 ≤ 100 := by nlinarith
    calc ⌊p * 100⌋ ≤ ⌊(100:ℚ)⌋ := Int.floor_le_floor hle
      _ = 100 := by norm_num

/-- The head of `dropWhile p` fails `p`. -/
theorem dropWhile_head_not {α : Type _} (p : α → Bool) (l : List α) (x : α) (xs : List α)
    (h : l.dropWhile p = x :: xs) : p x = false := by
  induction l with
  | nil => simp [List.dropWhile] at h
  | cons a as ih =>
      by_cases hp : p a
      · rw [List.dropWhile_cons, if_pos hp] at h
        exact ih h
      · rw [List.dropWhile_cons, if_neg hp] at h
        cases h
        simpa using hp

/-- A stripped character list never starts with whitespace. -/
theorem stripChars_head (l : List Char) (x : Char) (xs : List Char)
    (h : stripChars l = x :: xs) : x.isWhitespace = false := by
  unfold stripChars at h
  have hsuf : (l.dropWhile Char.isWhitespace).reverse.dropWhile Char.isWhitespace <:+
      (l.dropWhile Char.isWhitespace).reverse := List.dropWhile_suffix _
  have hpre : ((l.dropWhile Char.isWhitespace).reverse.dropWhile Char.isWhitespace).reverse <+:
      l.dropWhile Char.isWhitespace := by
    have := List.reverse_prefix.mpr hsuf
    simpa using this
  obtain ⟨t, ht⟩ := hpre
  rw [h] at ht
  exact dropWhile_head_not Char.isWhitespace l x (xs ++ t) ht.symm

/-- On a non-empty stripped string, Python's `split()[0]` is non-empty. -/
theorem firstToken_pyStrip_ne (s : String) (h : pyStrip s ≠ "") :
    firstToken (pyStrip s) ≠ "" := by
  cases hsc : stripChars s.data with
  | nil =>
      refine absurd ?_ h
      unfold pyStrip
      rw [hsc]
  | cons x xs =>
      intro hc
      have hdata : (firstToken (pyStrip s)).data = [] := by rw [hc]
      have hx := stripChars_head s.data x xs hsc
      rw [show (firstToken (pyStrip s)).data =
            (stripChars s.data).takeWhile (fun c => ¬ c.isWhitespace) from rfl] at hdata
      rw [hsc] at hdata
      simp [List.takeWhile_cons, hx] at hdata


/-! ### Sample data shared by witnesses -/

/-- A well-formed candidate record used in concrete witnesses. -/
def sampleRec : Record :=
  [("tag", Val.str "DIV"), ("width", Val.num 300),
   ("height", Val.num 250), ("area", Val.num 75000)]

/-- The corresponding candidate. -/
def sampleCand : Candidate := Candidate.obj sampleRec

/-- A candidate whose record lacks the required `width` field. -/
def noWidthRec : Record :=
  [("tag", Val.str "DIV"), ("height", Val.num 2), ("area", Val.num 2)]

/-! ### Claims -/

/-- **C1, counterexample.**  The claim says the reported confidence is
`round(p * 100)`.  With class-1 probability `p = 0.999` the code's
`int(proba[1] * 100)` truncates `99.9` to `99`, while rounding gives
`100`: the response reports confidence `99`. -/
theorem c1_round_counterexample :
    (predictOnCandidates (fun _ => 999/1000) "r" [sampleCand]).predictions =
      some [{ index := 0, isAd := true, confidence := 99, selector := "div" }] ∧
    round (((999 : ℚ)/1000) * 100) = 100 ∧
    (99 : ℤ) ≠ 100 := by
  refine ⟨?_, ?_, ?_⟩ <;> with_unfolding_all decide

/-- **C1, amended.**  For every successfully scored candidate the reported
confidence equals `int(p × 100)` — the class-1 probability scaled by 100
and truncated toward zero, not rounded — and `isAd` holds iff
`confidence ≥ CONFIDENCE_THRESHOLD = 80`. -/
theorem c1_confidence_truncates (oracle : List ℚ → ℚ) (rid : String)
    (l : List Candidate) (rs : List PredictionResult)
    (h : (predictOnCandidates oracle rid l).predictions = some rs) :
    ∀ (i : Nat) (pr : PredictionResult), rs[i]? = some pr →
      ∃ c, (truncated l)[i]? = some c ∧
        pr.confidence = pyInt (oracle (featuresOf c) * 100) ∧
        (pr.isAd = true ↔ pr.confidence ≥ CONFIDENCE_THRESHOLD) := by
  rw [predictOnCandidates] at h
  by_cases hemp : (truncated l).isEmpty
  · rw [if_pos hemp] at h
    simp only [Option.some.injEq] at h
    intro i pr hpr
    rw [← h] at hpr
    simp at hpr
  · rw [if_neg hemp] at h
    cases hfi : firstInvalid 0 (truncated l) with
    | some msg => rw [hfi] at h; simp at h
    | none =>
        rw [hfi] at h
        cases hbr : buildResults oracle 0 (truncated l) with
        | error e => rw [hbr] at h; simp at h
        | ok results =>
            rw [hbr] at h
            simp only [Option.some.injEq] at h
            rw [h] at hbr
            obtain ⟨-, hget⟩ := buildResults_ok_get? oracle 0 (truncated l) rs hbr
            intro i pr hpr
            obtain ⟨c, hc, hidx, hconf, had, hsel⟩ := hget i pr hpr
            refine ⟨c, hc, hconf, ?_⟩
            rw [had]
            exact decide_eq_true_iff

/-- Witness for `c1_confidence_truncates` at a concrete request. -/
theorem c1_confidence_truncates_witness :
    ((predictOnCandidates (fun _ => 1/2) "w1" [sampleCand]).predictions =
      some [{ index := 0, isAd := false, confidence := 50, selector := "div" }]) ∧
    (∀ (i : Nat) (pr : PredictionResult),
      [({ index := 0, isAd := false, confidence := 50, selector := "div" } : PredictionResult)][i]? =
        some pr →
      ∃ c, (truncated [sampleCand])[i]? = some c ∧
        pr.confidence = pyInt ((fun _ => (1:ℚ)/2) (featuresOf c) * 100) ∧
        (pr.isAd = true ↔ pr.confidence ≥ CONFIDENCE_THRESHOLD)) :=
  ⟨by with_unfolding_all decide,
   c1_confidence_truncates (fun _ => 1/2) "w1" [sampleCand]
     [{ index := 0, isAd := false, confidence := 50, selector := "div" }]
     (by with_unfolding_all decide)⟩

/-- The `isBannerSized` entry (position 7, 0-based) of a successful
feature extraction. -/
def bannerFeature (r : Record) : Option ℚ :=
  match extract_features r with
  | Except.ok f => f[7]?
  | Except.error _ => none

/-- **C2, counterexample.**  The claim says `isBannerSized` is 0 for
width 727, height 90.  But `727 ≥ 320 ∧ 90 ≥ 50` — the mobile-banner
disjunct — holds, so the extracted feature is 1. -/
theorem c2_banner_727_counterexample :
    bannerFeature [("width", Val.num 727), ("height", Val.num 90)] = some 1 ∧
    (1 : ℚ) ≠ 0 := by
  refine ⟨?_, ?_⟩
  · with_unfolding_all decide
  · norm_num

/-- **C2, amended.**  On any record whose fields are well-typed, the
extracted `isBannerSized` feature is 1 exactly when
`(width≥728 ∧ height≥90) ∨ (width≥300 ∧ height≥250) ∨
(width≥160 ∧ height≥600) ∨ (width≥320 ∧ height≥50)` and 0 otherwise
(the spec's rule, stated here verbatim on the right-hand side); in
particular it is 1 at 728×90 — and also 1 at 727×90, where the mobile
banner disjunct fires, contrary to the claim's example. -/
theorem c2_banner_rule (r : Record) (w h a : ℚ) (t : String)
    (hw : toNum (getD r "width" (Val.num 0)) = some w)
    (hh : toNum (getD r "height" (Val.num 0)) = some h)
    (ha : toNum (getD r "area" (Val.num 0)) = some a)
    (ht : getD r "tag" (Val.str "") = Val.str t) :
    bannerFeature r =
      some (if (w ≥ 728 ∧ h ≥ 90) ∨ (w ≥ 300 ∧ h ≥ 250) ∨
               (w ≥ 160 ∧ h ≥ 600) ∨ (w ≥ 320 ∧ h ≥ 50)
            then (1:ℚ) else 0) := by
  rw [bannerFeature, extract_features_ok_of r w h a t hw hh ha ht]
  simp [isBanner]

/-- Witness for `c2_banner_rule`: the leaderboard boundary 728×90, where
the feature is 1. -/
theorem c2_banner_rule_witness :
    bannerFeature [("width", Val.num 728), ("height", Val.num 90)] =
      some (if ((728:ℚ) ≥ 728 ∧ (90:ℚ) ≥ 90) ∨ ((728:ℚ) ≥ 300 ∧ (90:ℚ) ≥ 250) ∨
               ((728:ℚ) ≥ 160 ∧ (90:ℚ) ≥ 600) ∨ ((728:ℚ) ≥ 320 ∧ (90:ℚ) ≥ 50)
            then (1:ℚ) else 0) :=
  c2_banner_rule [("width", Val.num 728), ("height", Val.num 90)] 728 90 0 ""
    (by with_unfolding_all decide) (by with_unfolding_all decide)
    (by with_unfolding_all decide) (by with_unfolding_all decide)

/-- **C3, counterexample.**  The claim says `extract_features` never
fails on any associative record.  A record whose `width` is the string
`"x"` (with positive numeric height) makes `width / height` raise
`TypeError` — which is why the call site wraps extraction in
`try/except`. -/
theorem c3_extract_not_total :
    extract_features [("width", Val.str "x"), ("height", Val.num 1)] =
      Except.error "TypeError: width" := by
  with_unfolding_all decide

/-- **C3, amended.**  `extract_features` is a pure total function on
every record whose `width`/`height`/`area` fields (when present) are
numeric — booleans included — and whose `tag` field (when present) is a
string: it then returns, without failing, a vector of exactly 10
features.  Missing optional fields are substituted by defaults, so the
record missing all fields qualifies.  (On ill-typed fields it raises,
per the counterexample.) -/
theorem c3_extract_total_welltyped (r : Record) (w h a : ℚ) (t : String)
    (hw : toNum (getD r "width" (Val.num 0)) = some w)
    (hh : toNum (getD r "height" (Val.num 0)) = some h)
    (ha : toNum (getD r "area" (Val.num 0)) = some a)
    (ht : getD r "tag" (Val.str "") = Val.str t) :
    ∃ f, extract_features r = Except.ok f ∧ f.length = 10 :=
  ⟨_, extract_features_ok_of r w h a t hw hh ha ht, rfl⟩

/-- Witness for `c3_extract_total_welltyped`: the empty record (all
optional fields missing) extracts to a 10-vector. -/
theorem c3_extract_total_welltyped_witness :
    ∃ f, extract_features [] = Except.ok f ∧ f.length = 10 :=
  c3_extract_total_welltyped [] 0 0 0 ""
    (by with_unfolding_all decide) (by with_unfolding_all decide)
    (by with_unfolding_all decide) (by with_unfolding_all decide)

/-- **C4.**  If any candidate of the post-truncation batch is invalid
(not an object, missing a required field, or with an ill-typed/negative
dimension), the whole request is rejected with a 400 error carrying the
first offending candidate's message — which for a record missing `width`
literally names `width` and the index — and no predictions are produced. -/
theorem c4_invalid_rejects_batch (oracle : List ℚ → ℚ) (rid : String)
    (l : List Candidate) (i : Nat) (c : Candidate)
    (hlen : l.length ≤ MAX_CANDIDATES)
    (hget : l[i]? = some c)
    (hfirst : ∀ j cj, j < i → l[j]? = some cj → candValid cj = true)
    (hbad : candValid c = false) :
    (predictOnCandidates oracle rid l).status = 400 ∧
    (predictOnCandidates oracle rid l).predictions = none ∧
    (predictOnCandidates oracle rid l).error = some (invalidMsg c i) ∧
    (∀ r, c = Candidate.obj r → lookup r "tag" ≠ none → lookup r "width" = none →
      invalidMsg c i = s!"Candidate {i} missing required field: width") := by
  have htr : truncated l = l := by
    unfold truncated
    rw [if_neg (by omega)]
  have hne : l.isEmpty = false := by
    cases l with
    | nil => simp at hget
    | cons a as => rfl
  have hfi : firstInvalid 0 l = some (invalidMsg c i) := by
    have := firstInvalid_eq_some 0 l i c hget hfirst hbad
    simpa using this
  have hresp : predictOnCandidates oracle rid l =
      { status := 400, error := some (invalidMsg c i), predictions := none,
        total_scanned := none, ads_detected := none, request_id := none } := by
    rw [predictOnCandidates, htr, hne, hfi]
    rfl
  refine ⟨by rw [hresp], by rw [hresp], by rw [hresp], ?_⟩
  intro r hc htag hwidth
  subst hc
  simp only [invalidMsg, validate_candidate]
  rw [if_neg htag, if_pos hwidth]

/-- Witness for `c4_invalid_rejects_batch`: a two-element batch whose
second record lacks `width` is rejected with the message naming index 1
and `width`. -/
theorem c4_invalid_rejects_batch_witness :
    (predictOnCandidates (fun _ => 0) "w4" [sampleCand, Candidate.obj noWidthRec]).status = 400 ∧
    (predictOnCandidates (fun _ => 0) "w4" [sampleCand, Candidate.obj noWidthRec]).predictions = none ∧
    (predictOnCandidates (fun _ => 0) "w4" [sampleCand, Candidate.obj noWidthRec]).error =
      some (invalidMsg (Candidate.obj noWidthRec) 1) ∧
    (∀ r, Candidate.obj noWidthRec = Candidate.obj r →
      lookup r "tag" ≠ none → lookup r "width" = none →
      invalidMsg (Candidate.obj noWidthRec) 1 = s!"Candidate {(1:Nat)} missing required field: width") :=
  c4_invalid_rejects_batch (fun _ => 0) "w4" [sampleCand, Candidate.obj noWidthRec] 1
    (Candidate.obj noWidthRec)
    (by with_unfolding_all decide)
    (by with_unfolding_all decide)
    (fun j cj hj hcj => by
      cases j with
      | zero =>
          simp [sampleCand] at hcj
          rw [← hcj]
          with_unfolding_all decide
      | succ n => omega)
    (by with_unfolding_all decide)

/-- **C5.**  A submitted batch longer than `MAX_CANDIDATES = 500` is
silently truncated: the response is identical to the one for the first
500 candidates in order, and (when those are valid and their selectors
build) the request succeeds with `total_scanned = 500` and no error. -/
theorem c5_truncates_to_500 (oracle : List ℚ → ℚ) (rid : String) (l : List Candidate)
    (hlen : l.length > MAX_CANDIDATES)
    (hval : ∀ c ∈ l.take MAX_CANDIDATES, candValid c = true)
    (hsel : ∀ c ∈ l.take MAX_CANDIDATES, (selectorOf c).isOk = true) :
    predictOnCandidates oracle rid l =
      predictOnCandidates oracle rid (l.take MAX_CANDIDATES) ∧
    (predictOnCandidates oracle rid l).total_scanned = some MAX_CANDIDATES ∧
    (predictOnCandidates oracle rid l).status = 200 ∧
    (predictOnCandidates oracle rid l).error = none := by
  have hlen500 : (l.take MAX_CANDIDATES).length = MAX_CANDIDATES := by
    simp [List.length_take]
    omega
  have htr : truncated l = l.take MAX_CANDIDATES := by
    unfold truncated
    rw [if_pos hlen]
  have htr2 : truncated (l.take MAX_CANDIDATES) = l.take MAX_CANDIDATES := by
    unfold truncated
    rw [if_neg (by omega)]
  have heq : predictOnCandidates oracle rid l =
      predictOnCandidates oracle rid (l.take MAX_CANDIDATES) := by
    rw [predictOnCandidates, predictOnCandidates, htr, htr2]
  have hne : (l.take MAX_CANDIDATES).isEmpty = false := by
    cases hc : l.take MAX_CANDIDATES with
    | nil => rw [hc] at hlen500; simp [MAX_CANDIDATES] at hlen500
    | cons a as => rfl
  have hfi : firstInvalid 0 (l.take MAX_CANDIDATES) = none :=
    (firstInvalid_eq_none 0 (l.take MAX_CANDIDATES)).mpr hval
  obtain ⟨rs, hbr, -⟩ := buildResults_ok_exists oracle 0 (l.take MAX_CANDIDATES) hsel
  have hresp : predictOnCandidates oracle rid l =
      { status := 200, error := none, predictions := some rs,
        total_scanned := some MAX_CANDIDATES,
        ads_detected := some (rs.countP (fun r => r.isAd)),
        request_id := some rid } := by
    rw [predictOnCandidates, htr, hne, hfi, hbr]
    simp [hlen500]
  exact ⟨heq, by rw [hresp], by rw [hresp], by rw [hresp]⟩

/-- Witness for `c5_truncates_to_500`: a batch of 600 valid candidates
is scored as its first 500, with `total_scanned = 500`. -/
theorem c5_truncates_to_500_witness :
    predictOnCandidates (fun _ => 0) "w5" (List.replicate 600 sampleCand) =
      predictOnCandidates (fun _ => 0) "w5" ((List.replicate 600 sampleCand).take MAX_CANDIDATES) ∧
    (predictOnCandidates (fun _ => 0) "w5" (List.replicate 600 sampleCand)).total_scanned =
      some MAX_CANDIDATES ∧
    (predictOnCandidates (fun _ => 0) "w5" (List.replicate 600 sampleCand)).status = 200 ∧
    (predictOnCandidates (fun _ => 0) "w5" (List.replicate 600 sampleCand)).error = none :=
  c5_truncates_to_500 (fun _ => 0) "w5" (List.replicate 600 sampleCand)
    (by simp [MAX_CANDIDATES])
    (fun c hc => by
      rw [List.take_replicate] at hc
      rw [List.eq_of_mem_replicate hc]
      with_unfolding_all decide)
    (fun c hc => by
      rw [List.take_replicate] at hc
      rw [List.eq_of_mem_replicate hc]
      with_unfolding_all decide)

/-- **C6, counterexample.**  The claim says the selector falls back to
`"div"` when `tag` is empty.  The source's default (`candidate.get('tag',
'div')`) applies only when the key is *absent*: a record whose `tag` is
present but the empty string yields `""`, not `"div"`. -/
theorem c6_empty_tag_counterexample :
    create_selector [("tag", Val.str "")] = Except.ok "" ∧
    ("" : String) ≠ "div" := by
  refine ⟨?_, ?_⟩
  · with_unfolding_all decide
  · decide

/-- **C6, amended.**  Selector precedence on string-typed fields:
`#<trimmed id>` if the id strips non-empty, else `.<first class token>`
if the classList strips non-empty, else the lower-cased tag.  The `"div"`
default is used when the `tag` key is absent; a present-but-empty tag
yields the empty string. -/
theorem c6_selector_precedence (ids cls tg : String) :
    create_selector [("id", Val.str ids), ("classList", Val.str cls), ("tag", Val.str tg)] =
      Except.ok (if pyStrip ids ≠ "" then "#" ++ pyStrip ids
        else if pyStrip cls ≠ "" then "." ++ firstToken (pyStrip cls)
        else pyLower tg) ∧
    create_selector [] = Except.ok "div" ∧
    create_selector [("tag", Val.str "")] = Except.ok "" := by
  refine ⟨?_, by with_unfolding_all decide, by with_unfolding_all decide⟩
  have h1 : getD [("id", Val.str ids), ("classList", Val.str cls), ("tag", Val.str tg)]
      "id" (Val.str "") = Val.str ids := by simp [getD, lookup]
  have h2 : getD [("id", Val.str ids), ("classList", Val.str cls), ("tag", Val.str tg)]
      "classList" (Val.str "") = Val.str cls := by simp [getD, lookup]
  have h3 : getD [("id", Val.str ids), ("classList", Val.str cls), ("tag", Val.str tg)]
      "tag" (Val.str "div") = Val.str tg := by simp [getD, lookup]
  by_cases hid : pyStrip ids = ""
  · by_cases hcls : pyStrip cls = ""
    · simp [create_selector, h1, h2, h3, toStrE, Except.instMonad, Except.bind,
        Except.pure, hid, hcls]
    · have hft := firstToken_pyStrip_ne cls hcls
      simp [create_selector, h1, h2, h3, toStrE, Except.instMonad, Except.bind,
        Except.pure, hid, hcls, hft]
  · simp [create_selector, h1, h2, h3, toStrE, Except.instMonad, Except.bind,
      Except.pure, hid]

/-- **C7.**  On every candidate that passes validation the extracted
`aspectRatio` feature (position 6) lies in `[0, 10]`, and — whenever the
oracle returns class-1 probabilities in `[0, 1]` — every confidence the
pipeline reports lies in `[0, 100]`. -/
theorem c7_ranges (oracle : List ℚ → ℚ) (rid : String) (l : List Candidate)
    (hp : ∀ x, 0 ≤ oracle x ∧ oracle x ≤ 1) :
    (∀ c : Candidate, candValid c = true →
      ∀ x : ℚ, (featuresOf c)[6]? = some x → 0 ≤ x ∧ x ≤ 10) ∧
    (∀ rs : List PredictionResult,
      (predictOnCandidates oracle rid l).predictions = some rs →
      ∀ pr ∈ rs, 0 ≤ pr.confidence ∧ pr.confidence ≤ 100) := by
  constructor
  · intro c hvalid x hx
    cases c with
    | nonObj => simp [candValid] at hvalid
    | obj r =>
        have hpass := validate_candidate_pass r 0 (by simpa [candValid] using hvalid)
        obtain ⟨-, ⟨w, hw, hw0⟩, ⟨h, hh, hh0⟩, ⟨a, ha, ha0⟩⟩ := hpass
        have hmin : ∀ y : ℚ, y = min (if h > 0 then w / h else 0) 10 → 0 ≤ y ∧ y ≤ 10 := by
          intro y hy
          subst hy
          constructor
          · apply le_min
            · by_cases hpos : h > 0
              · rw [if_pos hpos]
                exact div_nonneg hw0 hpos.le
              · rw [if_neg hpos]
            · norm_num
          · exact min_le_right _ _
        cases hv : getD r "tag" (Val.str "") with
        | str t =>
            have hex := extract_features_ok_of r w h a t hw hh ha hv
            simp [featuresOf, hex] at hx
            exact hmin x hx.symm
        | num q =>
            have hex := extract_features_error_tag r w h a hw hh ha
              (by intro t heq; rw [hv] at heq; cases heq)
            simp [featuresOf, hex, List.getElem?_replicate] at hx
            simp [← hx]
        | bool b =>
            have hex := extract_features_error_tag r w h a hw hh ha
              (by intro t heq; rw [hv] at heq; cases heq)
            simp [featuresOf, hex, List.getElem?_replicate] at hx
            simp [← hx]
        | null =>
            have hex := extract_features_error_tag r w h a hw hh ha
              (by intro t heq; rw [hv] at heq; cases heq)
            simp [featuresOf, hex, List.getElem?_replicate] at hx
            simp [← hx]
  · intro rs h pr hpr
    rw [predictOnCandidates] at h
    by_cases hemp : (truncated l).isEmpty
    · rw [if_pos hemp] at h
      simp only [Option.some.injEq] at h
      rw [← h] at hpr
      simp at hpr
    · rw [if_neg hemp] at h
      cases hfi : firstInvalid 0 (truncated l) with
      | some msg => rw [hfi] at h; simp at h
      | none =>
          rw [hfi] at h
          cases hbr : buildResults oracle 0 (truncated l) with
          | error e => rw [hbr] at h; simp at h
          | ok results =>
              rw [hbr] at h
              simp only [Option.some.injEq] at h
              rw [h] at hbr
              obtain ⟨-, hget⟩ := buildResults_ok_get? oracle 0 (truncated l) rs hbr
              obtain ⟨i, hi⟩ := List.mem_iff_getElem?.mp hpr
              obtain ⟨c, -, -, hconf, -, -⟩ := hget i pr hi
              rw [hconf]
              exact pyInt_scaled_bounds (oracle (featuresOf c))
                (hp (featuresOf c)).1 (hp (featuresOf c)).2

/-- Witness for `c7_ranges` with the constant probability-¹⁄₂ oracle. -/
theorem c7_ranges_witness :
    (∀ c : Candidate, candValid c = true →
      ∀ x : ℚ, (featuresOf c)[6]? = some x → 0 ≤ x ∧ x ≤ 10) ∧
    (∀ rs : List PredictionResult,
      (predictOnCandidates (fun _ => 1/2) "w7" [sampleCand]).predictions = some rs →
      ∀ pr ∈ rs, 0 ≤ pr.confidence ∧ pr.confidence ≤ 100) :=
  c7_ranges (fun _ => 1/2) "w7" [sampleCand]
    (fun _ => ⟨by norm_num, by norm_num⟩)

/-- **C8, counterexample.**  The claim says every response — including
the empty-batch short-circuit — carries a `request_id`.  The empty-batch
success response (`jsonify` at lines 241–246) has no `request_id` key. -/
theorem c8_empty_batch_no_request_id :
    (predictOnCandidates (fun _ => 0) "abc12345" []).request_id = none ∧
    (predictOnCandidates (fun _ => 0) "abc12345" []).status = 200 := by
  refine ⟨?_, ?_⟩ <;> with_unfolding_all decide

/-- **C8, amended.**  Only the scored success response and the
caught-exception 500 carry `request_id`; the empty-batch short-circuit,
the model-not-loaded 500, the malformed-body 400s, and the
candidate-validation 400 all lack it. -/
theorem c8_request_id_paths (oracle : List ℚ → ℚ) (rid : String)
    (l : List Candidate) (body : ReqBody) :
    (predictOnCandidates oracle rid []).request_id = none ∧
    (predict false oracle rid body).request_id = none ∧
    (predict true oracle rid ReqBody.noJson).request_id = none ∧
    (predict true oracle rid ReqBody.missingAdCandidates).request_id = none ∧
    (predict true oracle rid ReqBody.notArray).request_id = none ∧
    (firstInvalid 0 (truncated l) ≠ none →
      (predictOnCandidates oracle rid l).request_id = none) ∧
    ((truncated l).isEmpty = false → firstInvalid 0 (truncated l) = none →
      (predictOnCandidates oracle rid l).request_id = some rid) := by
  refine ⟨rfl, rfl, rfl, rfl, rfl, ?_, ?_⟩
  · intro hfi
    rw [predictOnCandidates]
    by_cases hemp : (truncated l).isEmpty
    · rw [if_pos hemp]
    · rw [if_neg hemp]
      cases hv : firstInvalid 0 (truncated l) with
      | some msg => rfl
      | none => exact absurd hv hfi
  · intro hemp hfi
    rw [predictOnCandidates, hemp, hfi]
    cases hbr : buildResults oracle 0 (truncated l) with
    | error e => simp
    | ok results => simp

/-- Witness for `c8_request_id_paths`: a valid one-element batch does get
`request_id`, while the early paths do not. -/
theorem c8_request_id_paths_witness :
    (predictOnCandidates (fun _ => 0) "w8" [sampleCand]).request_id = some "w8" :=
  (c8_request_id_paths (fun _ => 0) "w8" [sampleCand] ReqBody.noJson).2.2.2.2.2.2
    (by with_unfolding_all decide) (by with_unfolding_all decide)

/-- **C9, counterexample.**  The claim says exactly 40 % of the `n`
samples are labeled positive for *every* `n`.  With `n = 7` the code's
`int(n_samples * 0.4)` yields 2 positives, and `2/7 ≠ 40 %`. -/
theorem c9_ratio_counterexample :
    (trainingLabels 7).length = 7 ∧
    (trainingLabels 7).count 1 = 2 ∧
    5 * (trainingLabels 7).count 1 ≠ 2 * 7 := by
  refine ⟨?_, ?_, ?_⟩ <;> with_unfolding_all decide

/-- **C9, amended.**  `generate_training_data(n)` produces exactly `n`
labeled vectors, of which `int(n * 0.4) = ⌊2n/5⌋` are positive and the
rest negative; the split is exactly 40 % / 60 % precisely when `n` is a
multiple of 5 (e.g. the default `n = 5000`). -/
theorem c9_label_counts (n : Nat) :
    (trainingLabels n).length = n ∧
    (trainingLabels n).count 1 = n_ads n ∧
    (trainingLabels n).count 0 = n - n_ads n ∧
    (5 ∣ n → 5 * (trainingLabels n).count 1 = 2 * n) := by
  have hle : n_ads n ≤ n := by
    unfold n_ads
    omega
  refine ⟨?_, ?_, ?_, ?_⟩
  · simp [trainingLabels]
    omega
  · simp [trainingLabels, List.count_append, List.count_replicate]
  · simp [trainingLabels, List.count_append, List.count_replicate]
  · intro hdvd
    simp [trainingLabels, List.count_append, List.count_replicate, n_ads]
    omega

/-- Witness for `c9_label_counts` at the repository's default sample
count 5000: 2000 positives, an exact 40 %. -/
theorem c9_label_counts_witness :
    5 * (trainingLabels 5000).count 1 = 2 * 5000 :=
  (c9_label_counts 5000).2.2.2 ⟨1000, rfl⟩

/-- **C10.**  A record with all four required fields whose `width`,
`height` and `area` are booleans passes `validate_candidate`
(`isinstance(True, int)` holds in Python), and feature extraction then
uses `1`/`0` for `True`/`False` in the corresponding feature positions. -/
theorem c10_bool_dimensions_pass (b1 b2 b3 : Bool) (t : String) (i : Nat) :
    (validate_candidate [("tag", Val.str t), ("width", Val.bool b1),
        ("height", Val.bool b2), ("area", Val.bool b3)] i).1 = true ∧
    (∃ f, extract_features [("tag", Val.str t), ("width", Val.bool b1),
        ("height", Val.bool b2), ("area", Val.bool b3)] = Except.ok f ∧
      f[2]? = some (if b1 then (1:ℚ) else 0) ∧
      f[3]? = some (if b2 then (1:ℚ) else 0) ∧
      f[4]? = some (if b3 then (1:ℚ) else 0)) := by
  constructor
  · unfold validate_candidate
    have hb : ∀ b : Bool, (0:ℚ) ≤ numVal (Val.bool b) := by
      intro b
      cases b <;> norm_num [numVal]
    simp [lookup, getD, getF, isNumericV, not_lt.mpr (hb b1), not_lt.mpr (hb b2),
      not_lt.mpr (hb b3)]
  · have hex := extract_features_ok_of
      [("tag", Val.str t), ("width", Val.bool b1), ("height", Val.bool b2), ("area", Val.bool b3)]
      (if b1 then 1 else 0) (if b2 then 1 else 0) (if b3 then 1 else 0) t
      (by simp [getD, lookup, toNum]) (by simp [getD, lookup, toNum])
      (by simp [getD, lookup, toNum]) (by simp [getD, lookup])
    exact ⟨_, hex, by simp, by simp, by simp⟩
